import Mathlib

/-!
Verification of the duplex audio relay and barge-in controller of
`src/main.py` (the `/media-stream` handler).  The shared closure state of
`handle_media_stream` is embedded as `SessionState`; the two pumps
`receive_from_twilio` and `send_to_twilio` are embedded as recursive
functions over the list of messages their connection delivers, returning
the final shared state together with the ordered list of side effects
(`Action`) performed on the two connections.  Python's unbounded integers
are modelled as `Int` where subtraction occurs, `Nat` for byte values.
-/

namespace Wetrophia

/-- Standard base64 alphabet, as used by Python's `base64` module. -/
def b64chars : List Char :=
  ['A','B','C','D','E','F','G','H','I','J','K','L','M',
   'N','O','P','Q','R','S','T','U','V','W','X','Y','Z',
   'a','b','c','d','e','f','g','h','i','j','k','l','m',
   'n','o','p','q','r','s','t','u','v','w','x','y','z',
   '0','1','2','3','4','5','6','7','8','9','+','/']

/-- Character for one 6-bit group; the index 64 stands for the pad character. -/
def sextetChar (i : Nat) : Char :=
  if i = 64 then '=' else b64chars.getD i '?'

/-- Index of a character in the alphabet; characters outside the alphabet
(including the pad) map to 64, the length of the alphabet. -/
def charSextet (c : Char) : Nat :=
  b64chars.indexOf c

/-- Bytes to 6-bit groups with pad markers (64), as in Python
`base64.b64encode`: 3 bytes become 4 sextets, a 2-byte tail becomes 3
sextets and one pad, a 1-byte tail becomes 2 sextets and two pads. -/
def bytesToSextets : List Nat → List Nat
  | b1 :: b2 :: b3 :: rest =>
      b1 / 4 :: ((b1 % 4) * 16 + b2 / 16) :: ((b2 % 16) * 4 + b3 / 64) ::
        (b3 % 64) :: bytesToSextets rest
  | [b1, b2] => [b1 / 4, (b1 % 4) * 16 + b2 / 16, (b2 % 16) * 4, 64]
  | [b1] => [b1 / 4, (b1 % 4) * 16, 64, 64]
  | [] => []

/-- Groups of 4 sextets back to bytes; a pad marker (64) in the last or the
last two positions of a terminal group yields 2 or 1 bytes. -/
def sextetsToBytes : List Nat → List Nat
  | a :: b :: c :: d :: rest =>
      if d = 64 then
        if c = 64 then [a * 4 + b / 16]
        else [a * 4 + b / 16, (b % 16) * 16 + c / 4]
      else
        (a * 4 + b / 16) :: ((b % 16) * 16 + c / 4) :: ((c % 4) * 64 + d) ::
          sextetsToBytes rest
  | _ => []

/-- Models `base64.b64encode(bs).decode('utf-8')`: bytes to base64 text. -/
def b64encode (bs : List Nat) : String :=
  String.mk ((bytesToSextets bs).map sextetChar)

/-- Models `base64.b64decode(s)` (via `binascii.a2b_base64`): characters
outside the alphabet and the pad are discarded, then the remaining length
must be a multiple of four, otherwise the call raises (modelled as `none`). -/
def b64decode (s : String) : Option (List Nat) :=
  if (s.data.filter (fun c => b64chars.contains c || c == '=')).length % 4 = 0 then
    some (sextetsToBytes
      ((s.data.filter (fun c => b64chars.contains c || c == '=')).map charSextet))
  else
    none

/-- A canonical base64 string: the base64 encoding of some byte sequence. -/
def IsCanonicalB64 (s : String) : Prop :=
  ∃ bs : List Nat, (∀ b ∈ bs, b < 256) ∧ b64encode bs = s

/-- The shared connection-specific state of `handle_media_stream`
(`src/main.py` lines 162-166), captured by both pump closures. -/
structure SessionState where
  stream_sid : Option String
  latest_media_timestamp : Int
  last_assistant_item : Option String
  mark_queue : List String
  response_start_timestamp_twilio : Option Int
deriving DecidableEq

/-- The initial shared state (`src/main.py` lines 162-166). -/
def initialState : SessionState :=
  { stream_sid := none, latest_media_timestamp := 0, last_assistant_item := none,
    mark_queue := [], response_start_timestamp_twilio := none }

/-- Python truthiness of an optional string: `None` and `""` are falsy. -/
def truthyStr : Option String → Bool
  | none => false
  | some s => s != ""

/-- Commands sent to the model connection (`openai_ws.send`). -/
inductive ModelCommand
  | audioAppend (audio : String)
  | truncate (item_id : String) (content_index : Nat) (audio_end_ms : Int)
deriving DecidableEq

/-- Messages sent to the caller connection (`websocket.send_json`). -/
inductive CallerMsgOut
  | media (streamSid : Option String) (payload : String)
  | mark (streamSid : Option String) (name : String)
  | clear (streamSid : Option String)
deriving DecidableEq

/-- A side effect performed by one of the pumps on a connection. -/
inductive Action
  | sendToModel (cmd : ModelCommand)
  | sendToCaller (msg : CallerMsgOut)
  | closeModel
  | closeCaller
deriving DecidableEq

/-- One item delivered by the caller connection to the inbound pump:
a decoded Twilio event, a message that fails `json.loads` (`malformed`),
or the `WebSocketDisconnect` raised when the caller leg closes
(`disconnect`, necessarily the last item). -/
inductive TwilioMsg
  | malformed
  | media (timestamp : Int) (payload : String)
  | start (streamSid : String)
  | mark
  | stop
  | other
  | disconnect
deriving DecidableEq

/-- One event delivered by the model connection to the outbound pump.
`audioDelta`'s fields model `response.get("item_id")` and the optional
`delta` key of a `response.output_audio.delta` event. -/
inductive OpenAIMsg
  | audioDelta (item_id : Option String) (delta : Option String)
  | speechStarted
  | other
  | malformed
deriving DecidableEq

/-- Effect of one decoded caller event on the shared state, from the
`async for` body of `receive_from_twilio` (`src/main.py` lines 173-190).
Only `stream_sid` and `latest_media_timestamp` are in that handler's
`nonlocal` declaration (line 170); the assignments to
`response_start_timestamp_twilio` and `last_assistant_item` in the
`start` branch (lines 185, 187) therefore bind fresh function-local names
and leave the shared state untouched, so the `start` branch updates the
shared `stream_sid` and `latest_media_timestamp` only.  A `media` event is
acted on only when the event is `media` AND the model socket is open
(the single conjunction on line 174); `stop` matches no branch. -/
def receiveStep (modelOpen : Bool) (st : SessionState) : TwilioMsg → SessionState × List Action
  | TwilioMsg.media ts payload =>
      if modelOpen then
        ({ st with latest_media_timestamp := ts },
         [Action.sendToModel (ModelCommand.audioAppend payload)])
      else (st, [])
  | TwilioMsg.start sid =>
      ({ st with stream_sid := some sid, latest_media_timestamp := 0 }, [])
  | TwilioMsg.mark =>
      match st.mark_queue with
      | [] => (st, [])
      | _ :: rest => ({ st with mark_queue := rest }, [])
  | _ => (st, [])

/-- The inbound pump `receive_from_twilio` (`src/main.py` lines 168-196)
over the whole sequence its connection delivers.  The `try` block wraps the
entire `async for` loop, so a message on which `json.loads` raises is
caught by the function-level `except Exception` handler (line 195), which
logs and returns: the pump ends and the remaining messages are never
processed.  A `WebSocketDisconnect` (line 191) closes the model socket
when it is open and also ends the pump. -/
def receive_from_twilio (modelOpen : Bool) (st : SessionState) :
    List TwilioMsg → SessionState × List Action
  | [] => (st, [])
  | TwilioMsg.malformed :: _ => (st, [])
  | TwilioMsg.disconnect :: _ =>
      (st, if modelOpen then [Action.closeModel] else [])
  | m :: rest =>
      ((receive_from_twilio modelOpen (receiveStep modelOpen st m).1 rest).1,
       (receiveStep modelOpen st m).2 ++
         (receive_from_twilio modelOpen (receiveStep modelOpen st m).1 rest).2)

/-- The truncate command sent inside `handle_speech_started_event`
(`src/main.py` lines 207-217): emitted only when `last_assistant_item`
is truthy. -/
def truncateActions (st : SessionState) (elapsed : Int) : List Action :=
  match st.last_assistant_item with
  | some item =>
      if item = "" then []
      else [Action.sendToModel (ModelCommand.truncate item 0 elapsed)]
  | none => []

/-- `handle_speech_started_event` (`src/main.py` lines 198-226).  Guarded
by `mark_queue and response_start_timestamp_twilio is not None`; inside the
guard it computes `elapsed_time = latest_media_timestamp -
response_start_timestamp_twilio` (no clamping), sends the truncate command
when `last_assistant_item` is truthy, always sends `clear` to the caller,
then clears the mark queue, the current item and the start timestamp. -/
def handle_speech_started_event (st : SessionState) : SessionState × List Action :=
  match st.mark_queue, st.response_start_timestamp_twilio with
  | _ :: _, some t0 =>
      ({ st with mark_queue := [], last_assistant_item := none,
                 response_start_timestamp_twilio := none },
       truncateActions st (st.latest_media_timestamp - t0) ++
         [Action.sendToCaller (CallerMsgOut.clear st.stream_sid)])
  | _, _ => (st, [])

/-- `send_mark` (`src/main.py` lines 228-236): only when `stream_sid` is
truthy, send a mark event to the caller and append to the mark queue. -/
def send_mark (st : SessionState) : SessionState × List Action :=
  if truthyStr st.stream_sid then
    ({ st with mark_queue := st.mark_queue ++ ["responsePart"] },
     [Action.sendToCaller (CallerMsgOut.mark st.stream_sid "responsePart")])
  else (st, [])

/-- The item bookkeeping of the audio-delta branch (`src/main.py` lines
258-262): `if response.get("item_id") and response["item_id"] !=
last_assistant_item`, set the start timestamp to the current caller clock
and make the new id the current item. -/
def updateUtterance (st : SessionState) (item_id : Option String) : SessionState :=
  match item_id with
  | some iid =>
      if iid ≠ "" ∧ some iid ≠ st.last_assistant_item then
        { st with response_start_timestamp_twilio := some st.latest_media_timestamp,
                  last_assistant_item := some iid }
      else st
  | none => st

/-- The outbound pump `send_to_twilio` (`src/main.py` lines 238-272) over
the sequence of model events.  A message failing `json.loads`, or a delta
on which `base64.b64decode` raises, escapes to the function-level `except`
(line 271), which logs and returns: the pump ends.  For an audio delta the
code forwards `b64encode(b64decode(delta))` as the media payload (line
248), then runs the item bookkeeping, then `send_mark`; for
`input_audio_buffer.speech_started` it calls `handle_speech_started_event`
only when `last_assistant_item` is truthy (line 268). -/
def send_to_twilio (st : SessionState) : List OpenAIMsg → SessionState × List Action
  | [] => (st, [])
  | OpenAIMsg.malformed :: _ => (st, [])
  | OpenAIMsg.audioDelta item_id (some delta) :: rest =>
      match b64decode delta with
      | none => (st, [])
      | some audioBytes =>
          ((send_to_twilio (send_mark (updateUtterance st item_id)).1 rest).1,
           Action.sendToCaller (CallerMsgOut.media st.stream_sid (b64encode audioBytes)) ::
             ((send_mark (updateUtterance st item_id)).2 ++
              (send_to_twilio (send_mark (updateUtterance st item_id)).1 rest).2))
  | OpenAIMsg.audioDelta _ none :: rest => send_to_twilio st rest
  | OpenAIMsg.speechStarted :: rest =>
      if truthyStr st.last_assistant_item then
        ((send_to_twilio (handle_speech_started_event st).1 rest).1,
         (handle_speech_started_event st).2 ++
           (send_to_twilio (handle_speech_started_event st).1 rest).2)
      else send_to_twilio st rest
  | OpenAIMsg.other :: rest => send_to_twilio st rest

/-! ### Base64 round-trip lemmas -/

theorem sextetsToBytes_bytesToSextets : ∀ bs : List Nat, (∀ b ∈ bs, b < 256) →
    sextetsToBytes (bytesToSextets bs) = bs
  | b1 :: b2 :: b3 :: rest, h => by
      have hb1 : b1 < 256 := h b1 (by simp)
      have hb2 : b2 < 256 := h b2 (by simp)
      have hb3 : b3 < 256 := h b3 (by simp)
      have ih := sextetsToBytes_bytesToSextets rest (fun b hb => h b (by simp [hb]))
      simp only [bytesToSextets, sextetsToBytes]
      rw [if_neg (by omega)]
      simp only [List.cons.injEq]
      exact ⟨by omega, by omega, by omega, ih⟩
  | [b1, b2], h => by
      have hb1 : b1 < 256 := h b1 (by simp)
      have hb2 : b2 < 256 := h b2 (by simp)
      simp only [bytesToSextets, sextetsToBytes, if_true]
      rw [if_neg (by omega)]
      simp only [List.cons.injEq, and_true]
      exact ⟨by omega, by omega⟩
  | [b1], h => by
      have hb1 : b1 < 256 := h b1 (by simp)
      simp only [bytesToSextets, sextetsToBytes, if_true]
      simp only [List.cons.injEq, and_true]
      omega
  | [], _ => rfl

theorem bytesToSextets_length : ∀ bs : List Nat, (bytesToSextets bs).length % 4 = 0
  | b1 :: b2 :: b3 :: rest => by
      have ih := bytesToSextets_length rest
      simp only [bytesToSextets, List.length_cons]
      omega
  | [b1, b2] => by simp [bytesToSextets]
  | [b1] => by simp [bytesToSextets]
  | [] => by simp [bytesToSextets]

theorem bytesToSextets_le : ∀ bs : List Nat, (∀ b ∈ bs, b < 256) →
    ∀ i ∈ bytesToSextets bs, i ≤ 64
  | b1 :: b2 :: b3 :: rest, h => by
      have hb1 : b1 < 256 := h b1 (by simp)
      have hb2 : b2 < 256 := h b2 (by simp)
      have hb3 : b3 < 256 := h b3 (by simp)
      have ih := bytesToSextets_le rest (fun b hb => h b (by simp [hb]))
      intro i hi
      simp only [bytesToSextets, List.mem_cons] at hi
      rcases hi with rfl | rfl | rfl | rfl | hi
      · omega
      · omega
      · omega
      · omega
      · exact ih i hi
  | [b1, b2], h => by
      have hb1 : b1 < 256 := h b1 (by simp)
      have hb2 : b2 < 256 := h b2 (by simp)
      intro i hi
      simp only [bytesToSextets, List.mem_cons, List.not_mem_nil, or_false] at hi
      rcases hi with rfl | rfl | rfl | rfl <;> omega
  | [b1], h => by
      have hb1 : b1 < 256 := h b1 (by simp)
      intro i hi
      simp only [bytesToSextets, List.mem_cons, List.not_mem_nil, or_false] at hi
      rcases hi with rfl | rfl | rfl | rfl <;> omega
  | [], _ => by intro i hi; simp [bytesToSextets] at hi

theorem charSextet_sextetChar_fin : ∀ i : Fin 65, charSextet (sextetChar i.val) = i.val := by
  decide

theorem charSextet_sextetChar (i : Nat) (h : i ≤ 64) :
    charSextet (sextetChar i) = i :=
  charSextet_sextetChar_fin ⟨i, by omega⟩

theorem sextetChar_keep_fin :
    ∀ i : Fin 65, (b64chars.contains (sextetChar i.val) || sextetChar i.val == '=') = true := by
  decide

theorem sextetChar_keep (i : Nat) (h : i ≤ 64) :
    (b64chars.contains (sextetChar i) || sextetChar i == '=') = true :=
  sextetChar_keep_fin ⟨i, by omega⟩

theorem map_charSextet_sextetChar (l : List Nat) (h : ∀ i ∈ l, i ≤ 64) :
    (l.map sextetChar).map charSextet = l := by
  induction l with
  | nil => rfl
  | cons a t ih =>
      simp only [List.map_cons, List.cons.injEq]
      exact ⟨charSextet_sextetChar a (h a (by simp)),
             ih (fun i hi => h i (by simp [hi]))⟩

/-- Decoding the encoding of any byte sequence gives back the bytes: the
source's `b64encode(b64decode(delta))` is the identity on encodings. -/
theorem b64decode_b64encode (bs : List Nat) (h : ∀ b ∈ bs, b < 256) :
    b64decode (b64encode bs) = some bs := by
  have hkeep : ∀ c ∈ (bytesToSextets bs).map sextetChar,
      (b64chars.contains c || c == '=') = true := by
    intro c hc
    rcases List.mem_map.mp hc with ⟨i, hi, rfl⟩
    exact sextetChar_keep i (bytesToSextets_le bs h i hi)
  have hfilter :
      ((String.mk ((bytesToSextets bs).map sextetChar)).data.filter
        (fun c => b64chars.contains c || c == '=')) =
      (bytesToSextets bs).map sextetChar := by
    exact List.filter_eq_self.mpr hkeep
  unfold b64decode b64encode
  rw [hfilter, List.length_map, if_pos (bytesToSextets_length bs),
      map_charSextet_sextetChar _ (bytesToSextets_le bs h),
      sextetsToBytes_bytesToSextets bs h]

/-! ### Helper lemmas about the pumps -/

/-- Full characterization of `handle_speech_started_event` on a state with
a non-empty mark queue, a set start timestamp and a truthy current item. -/
theorem handle_speech_spec (st : SessionState) (t0 : Int) (item : String)
    (hq : st.mark_queue ≠ []) (ht : st.response_start_timestamp_twilio = some t0)
    (hi : st.last_assistant_item = some item) (hne : item ≠ "") :
    handle_speech_started_event st =
      ({ st with mark_queue := [], last_assistant_item := none,
                 response_start_timestamp_twilio := none },
       [Action.sendToModel (ModelCommand.truncate item 0 (st.latest_media_timestamp - t0)),
        Action.sendToCaller (CallerMsgOut.clear st.stream_sid)]) := by
  rcases hmq : st.mark_queue with _ | ⟨m, ms⟩
  · exact absurd hmq hq
  · simp [handle_speech_started_event, truncateActions, hmq, ht, hi, hne]

theorem truncateActions_no_close (st : SessionState) (e : Int) :
    ∀ a ∈ truncateActions st e, a ≠ Action.closeCaller := by
  unfold truncateActions
  split
  · split <;> simp
  · simp

theorem handle_speech_no_close (st : SessionState) :
    ∀ a ∈ (handle_speech_started_event st).2, a ≠ Action.closeCaller := by
  unfold handle_speech_started_event
  split
  · intro a ha
    rcases List.mem_append.mp ha with h | h
    · exact truncateActions_no_close st _ a h
    · simp only [List.mem_singleton] at h
      subst h
      simp
  · simp

theorem send_mark_no_close (st : SessionState) :
    ∀ a ∈ (send_mark st).2, a ≠ Action.closeCaller := by
  unfold send_mark
  split <;> simp

theorem receiveStep_no_close (mo : Bool) (st : SessionState) (m : TwilioMsg) :
    ∀ a ∈ (receiveStep mo st m).2, a ≠ Action.closeCaller := by
  unfold receiveStep
  split
  · split <;> simp
  · simp
  · split <;> simp
  · simp

theorem receive_no_close : ∀ (msgs : List TwilioMsg) (mo : Bool) (st : SessionState),
    ∀ a ∈ (receive_from_twilio mo st msgs).2, a ≠ Action.closeCaller
  | [], mo, st => by simp [receive_from_twilio]
  | TwilioMsg.malformed :: rest, mo, st => by simp [receive_from_twilio]
  | TwilioMsg.disconnect :: rest, mo, st => by
      intro a ha
      simp only [receive_from_twilio] at ha
      cases mo <;> simp at ha
      subst ha
      simp
  | TwilioMsg.media ts p :: rest, mo, st => by
      intro a ha
      simp only [receive_from_twilio] at ha
      rcases List.mem_append.mp ha with h | h
      · exact receiveStep_no_close mo st _ a h
      · exact receive_no_close rest mo _ a h
  | TwilioMsg.start sid :: rest, mo, st => by
      intro a ha
      simp only [receive_from_twilio] at ha
      rcases List.mem_append.mp ha with h | h
      · exact receiveStep_no_close mo st _ a h
      · exact receive_no_close rest mo _ a h
  | TwilioMsg.mark :: rest, mo, st => by
      intro a ha
      simp only [receive_from_twilio] at ha
      rcases List.mem_append.mp ha with h | h
      · exact receiveStep_no_close mo st _ a h
      · exact receive_no_close rest mo _ a h
  | TwilioMsg.stop :: rest, mo, st => by
      intro a ha
      simp only [receive_from_twilio] at ha
      rcases List.mem_append.mp ha with h | h
      · exact receiveStep_no_close mo st _ a h
      · exact receive_no_close rest mo _ a h
  | TwilioMsg.other :: rest, mo, st => by
      intro a ha
      simp only [receive_from_twilio] at ha
      rcases List.mem_append.mp ha with h | h
      · exact receiveStep_no_close mo st _ a h
      · exact receive_no_close rest mo _ a h

theorem send_no_close : ∀ (evs : List OpenAIMsg) (st : SessionState),
    ∀ a ∈ (send_to_twilio st evs).2, a ≠ Action.closeCaller
  | [], st => by simp [send_to_twilio]
  | OpenAIMsg.malformed :: rest, st => by simp [send_to_twilio]
  | OpenAIMsg.other :: rest, st => by
      intro a ha
      simp only [send_to_twilio] at ha
      exact send_no_close rest st a ha
  | OpenAIMsg.audioDelta itm none :: rest, st => by
      intro a ha
      simp only [send_to_twilio] at ha
      exact send_no_close rest st a ha
  | OpenAIMsg.audioDelta itm (some d) :: rest, st => by
      intro a ha
      simp only [send_to_twilio] at ha
      rcases hdec : b64decode d with _ | bs
      · rw [hdec] at ha
        simp at ha
      · rw [hdec] at ha
        simp only [List.mem_cons] at ha
        rcases ha with rfl | ha
        · simp
        · rcases List.mem_append.mp ha with h | h
          · exact send_mark_no_close _ a h
          · exact send_no_close rest _ a h
  | OpenAIMsg.speechStarted :: rest, st => by
      intro a ha
      simp only [send_to_twilio] at ha
      by_cases hb : truthyStr st.last_assistant_item = true
      · rw [if_pos hb] at ha
        rcases List.mem_append.mp ha with h | h
        · exact handle_speech_no_close st a h
        · exact send_no_close rest _ a h
      · rw [if_neg hb] at ha
        exact send_no_close rest st a ha

theorem updateUtterance_stream_sid (st : SessionState) (itm : Option String) :
    (updateUtterance st itm).stream_sid = st.stream_sid := by
  unfold updateUtterance
  split
  · split <;> rfl
  · rfl

theorem updateUtterance_same (st : SessionState) (iid : String)
    (hi : st.last_assistant_item = some iid) :
    updateUtterance st (some iid) = st := by
  simp only [updateUtterance]
  rw [if_neg (by simp [hi])]

theorem updateUtterance_new (st : SessionState) (iid : String) (h1 : iid ≠ "")
    (h2 : some iid ≠ st.last_assistant_item) :
    updateUtterance st (some iid) =
      { st with response_start_timestamp_twilio := some st.latest_media_timestamp,
                last_assistant_item := some iid } := by
  simp only [updateUtterance]
  rw [if_pos ⟨h1, h2⟩]

theorem send_mark_fields (st : SessionState) :
    (send_mark st).1.response_start_timestamp_twilio = st.response_start_timestamp_twilio ∧
    (send_mark st).1.last_assistant_item = st.last_assistant_item ∧
    (send_mark st).1.stream_sid = st.stream_sid := by
  unfold send_mark
  split <;> exact ⟨rfl, rfl, rfl⟩

theorem send_mark_some (st : SessionState) (sid : String) (hst : st.stream_sid = some sid)
    (h : sid ≠ "") :
    send_mark st =
      ({ st with mark_queue := st.mark_queue ++ ["responsePart"] },
       [Action.sendToCaller (CallerMsgOut.mark (some sid) "responsePart")]) := by
  have htr : truthyStr st.stream_sid = true := by
    rw [hst]
    simpa [truthyStr] using h
  unfold send_mark
  rw [if_pos htr, hst]

/-- Unfolding of the outbound pump on an audio delta whose payload decodes. -/
theorem send_to_twilio_delta (st : SessionState) (itm : Option String) (d : String)
    (bs : List Nat) (hdec : b64decode d = some bs) (rest : List OpenAIMsg) :
    send_to_twilio st (OpenAIMsg.audioDelta itm (some d) :: rest) =
      ((send_to_twilio (send_mark (updateUtterance st itm)).1 rest).1,
       Action.sendToCaller (CallerMsgOut.media st.stream_sid (b64encode bs)) ::
         ((send_mark (updateUtterance st itm)).2 ++
          (send_to_twilio (send_mark (updateUtterance st itm)).1 rest).2)) := by
  simp only [send_to_twilio, hdec]

/-! ### Claim theorems -/

/-- C1 (counterexample): with the current utterance started at caller clock
100 and the caller clock later observed at 50 (a clock anomaly, T1 < T0),
the barge-in handler sends a truncate command whose audio_end_ms is -50:
the value is negative, not clamped to 0 as the claim states. -/
theorem c1_clamp_counterexample :
    (handle_speech_started_event
        { stream_sid := some "MZ", latest_media_timestamp := 50,
          last_assistant_item := some "a1", mark_queue := ["responsePart"],
          response_start_timestamp_twilio := some 100 }).2 =
      [Action.sendToModel (ModelCommand.truncate "a1" 0 (-50)),
       Action.sendToCaller (CallerMsgOut.clear (some "MZ"))] ∧ (-50 : Int) < 0 := by
  decide

/-- C1 (amended): on every barge-in that reaches the truncation path (marks
pending, start timestamp T0 recorded, current item set), the truncate
command carries audio_end_ms = T1 - T0 where T1 is the observed caller
clock; in particular this equals T1 - T0 when T1 ≥ T0, but the code never
clamps, so the value is negative whenever T1 < T0. -/
theorem c1_truncation (st : SessionState) (t0 : Int) (item : String)
    (hq : st.mark_queue ≠ []) (ht : st.response_start_timestamp_twilio = some t0)
    (hi : st.last_assistant_item = some item) (hne : item ≠ "") :
    (handle_speech_started_event st).2 =
      [Action.sendToModel (ModelCommand.truncate item 0 (st.latest_media_timestamp - t0)),
       Action.sendToCaller (CallerMsgOut.clear st.stream_sid)] := by
  rw [handle_speech_spec st t0 item hq ht hi hne]

/-- C1 witness: utterance started at caller clock 1000, clock observed at
1350, barge-in truncates at 350ms. -/
theorem c1_truncation_witness :
    (handle_speech_started_event
        { stream_sid := some "MZ", latest_media_timestamp := 1350,
          last_assistant_item := some "a1", mark_queue := ["responsePart"],
          response_start_timestamp_twilio := some 1000 }).2 =
      [Action.sendToModel (ModelCommand.truncate "a1" 0 350),
       Action.sendToCaller (CallerMsgOut.clear (some "MZ"))] := by
  have h := c1_truncation
      { stream_sid := some "MZ", latest_media_timestamp := 1350,
        last_assistant_item := some "a1", mark_queue := ["responsePart"],
        response_start_timestamp_twilio := some 1000 }
      1000 "a1" (by decide) rfl rfl (by decide)
  rw [show (1350 : Int) - 1000 = 350 by norm_num] at h
  exact h

/-- C2 (counterexample): after a caller message that is not valid JSON, the
inbound pump ends: a following valid media frame is not processed (no
input_audio_buffer.append is sent and the caller clock stays 0), although
that same frame alone would have been processed. -/
theorem c2_counterexample :
    receive_from_twilio true initialState [TwilioMsg.malformed, TwilioMsg.media 5 "QQ=="] =
      (initialState, []) ∧
    receive_from_twilio true initialState [TwilioMsg.media 5 "QQ=="] ≠
      (initialState, []) := by
  decide

/-- C2 (amended): a caller message on which json.loads raises is caught by
the pump-level exception handler, which logs and returns: the inbound pump
terminates with the shared state unchanged and no command sent, and every
subsequent caller message (valid or not) is dropped unprocessed. -/
theorem c2_malformed_ends_pump (mo : Bool) (st : SessionState) (rest : List TwilioMsg) :
    receive_from_twilio mo st (TwilioMsg.malformed :: rest) = (st, []) := rfl

/-- C3 (counterexample): in a state with a current utterance but an empty
mark queue, a SpeechStarted event produces neither a truncate command nor a
clear command and leaves the state unchanged, contradicting the claim that
a current utterance always yields truncate plus clear. -/
theorem c3_counterexample :
    send_to_twilio
        { stream_sid := some "MZ", latest_media_timestamp := 1350,
          last_assistant_item := some "a1", mark_queue := [],
          response_start_timestamp_twilio := some 1000 }
        [OpenAIMsg.speechStarted] =
      ({ stream_sid := some "MZ", latest_media_timestamp := 1350,
         last_assistant_item := some "a1", mark_queue := [],
         response_start_timestamp_twilio := some 1000 }, []) := by
  decide

/-- C3 (amended): a SpeechStarted event has three outcomes, not two: with
no current utterance it is a no-op leaving all state unchanged; with a
current utterance, a non-empty mark queue and a recorded start timestamp it
sends truncate to the model and clear to the caller and afterwards the mark
queue is empty and the current utterance cleared; with a current utterance
but an empty mark queue it is also a complete no-op. -/
theorem c3_bargein_outcomes (st : SessionState) :
    (st.last_assistant_item = none →
      send_to_twilio st [OpenAIMsg.speechStarted] = (st, [])) ∧
    (∀ item t0, st.last_assistant_item = some item → item ≠ "" →
      st.response_start_timestamp_twilio = some t0 → st.mark_queue ≠ [] →
      send_to_twilio st [OpenAIMsg.speechStarted] =
        ({ st with mark_queue := [], last_assistant_item := none,
                   response_start_timestamp_twilio := none },
         [Action.sendToModel (ModelCommand.truncate item 0 (st.latest_media_timestamp - t0)),
          Action.sendToCaller (CallerMsgOut.clear st.stream_sid)])) ∧
    (∀ item, st.last_assistant_item = some item → item ≠ "" → st.mark_queue = [] →
      send_to_twilio st [OpenAIMsg.speechStarted] = (st, [])) := by
  refine ⟨fun h => ?_, fun item t0 hi hne ht hq => ?_, fun item hi hne hq => ?_⟩
  · simp [send_to_twilio, truthyStr, h]
  · have htr : truthyStr st.last_assistant_item = true := by
      rw [hi]
      simpa [truthyStr] using hne
    have hh := handle_speech_spec st t0 item hq ht hi hne
    simp [send_to_twilio, htr, hh]
  · have htr : truthyStr st.last_assistant_item = true := by
      rw [hi]
      simpa [truthyStr] using hne
    have hh : handle_speech_started_event st = (st, []) := by
      rw [handle_speech_started_event, hq]
    simp [send_to_twilio, htr, hh]

/-- C3 witness: barge-in with pending marks truncates and clears; a
SpeechStarted in the initial state (no current utterance) is a no-op. -/
theorem c3_bargein_outcomes_witness :
    send_to_twilio
        { stream_sid := some "MZ", latest_media_timestamp := 1350,
          last_assistant_item := some "a1", mark_queue := ["responsePart"],
          response_start_timestamp_twilio := some 1000 }
        [OpenAIMsg.speechStarted] =
      ({ stream_sid := some "MZ", latest_media_timestamp := 1350,
         last_assistant_item := none, mark_queue := [],
         response_start_timestamp_twilio := none },
       [Action.sendToModel (ModelCommand.truncate "a1" 0 350),
        Action.sendToCaller (CallerMsgOut.clear (some "MZ"))]) ∧
    send_to_twilio initialState [OpenAIMsg.speechStarted] = (initialState, []) := by
  constructor
  · have h := (c3_bargein_outcomes
        { stream_sid := some "MZ", latest_media_timestamp := 1350,
          last_assistant_item := some "a1", mark_queue := ["responsePart"],
          response_start_timestamp_twilio := some 1000 }).2.1
        "a1" 1000 rfl (by decide) rfl (by decide)
    rw [show (1350 : Int) - 1000 = 350 by norm_num] at h
    exact h
  · exact (c3_bargein_outcomes initialState).1 rfl

/-- C4 (counterexample): a concrete session in which the model leg closes
(the outbound pump consumes its final event and its stream ends) and the
caller leg then delivers further events never performs a close of the
caller connection anywhere in its combined effect trace: the relay leaves
the caller leg open after the model leg is gone. -/
theorem c4_counterexample :
    Action.closeCaller ∉
      ((send_to_twilio
          { stream_sid := some "MZ", latest_media_timestamp := 0,
            last_assistant_item := none, mark_queue := [],
            response_start_timestamp_twilio := none }
          [OpenAIMsg.audioDelta (some "a1") (some "AA==")]).2 ++
       (receive_from_twilio false
          { stream_sid := some "MZ", latest_media_timestamp := 0,
            last_assistant_item := some "a1", mark_queue := ["responsePart"],
            response_start_timestamp_twilio := some 0 }
          [TwilioMsg.media 7 "QQ==", TwilioMsg.mark]).2) := by
  decide

/-- C4 (amended): teardown is one-directional. A caller disconnect while
the model connection is open closes the model connection (and ends the
inbound pump); but no execution of either pump ever closes the caller
connection, so a model-leg closure leaves the caller leg open with inbound
frames merely dropped. -/
theorem c4_teardown_amended :
    (∀ (st : SessionState) (rest : List TwilioMsg),
      receive_from_twilio true st (TwilioMsg.disconnect :: rest) =
        (st, [Action.closeModel])) ∧
    (∀ (st : SessionState) (evs : List OpenAIMsg),
      Action.closeCaller ∉ (send_to_twilio st evs).2) ∧
    (∀ (mo : Bool) (st : SessionState) (msgs : List TwilioMsg),
      Action.closeCaller ∉ (receive_from_twilio mo st msgs).2) :=
  ⟨fun _ _ => rfl,
   fun st evs h => send_no_close evs st _ h rfl,
   fun mo st msgs h => receive_no_close msgs mo st _ h rfl⟩

/-- C5 (counterexample): before a start event has bound a stream id, an
audio delta is still forwarded to the caller as a media frame, but no mark
request follows it (send_mark does nothing when stream_sid is unset), so
not every forwarded frame is followed by an explicit mark request. -/
theorem c5_counterexample :
    (send_to_twilio initialState [OpenAIMsg.audioDelta (some "a1") (some "AA==")]).2 =
      [Action.sendToCaller (CallerMsgOut.media none "AA==")] := by
  decide

/-- C5 (amended): once a non-empty stream id is bound and every delta's
payload is canonical base64, a sequence of N audio deltas of one utterance
produces exactly the interleaving of N media frames in the order received,
each immediately followed by one mark request. -/
theorem c5_ordering (sid : String) (hsid : sid ≠ "") (itm : Option String) :
    ∀ (ds : List String) (st : SessionState), st.stream_sid = some sid →
      (∀ d ∈ ds, IsCanonicalB64 d) →
      (send_to_twilio st (ds.map (fun d => OpenAIMsg.audioDelta itm (some d)))).2 =
        (ds.map (fun d =>
          [Action.sendToCaller (CallerMsgOut.media (some sid) d),
           Action.sendToCaller (CallerMsgOut.mark (some sid) "responsePart")])).flatten := by
  intro ds
  induction ds with
  | nil => intro st hst hds; simp [send_to_twilio]
  | cons d ds ih =>
      intro st hst hds
      obtain ⟨bs, hbs, henc⟩ := hds d (by simp)
      have hdec : b64decode d = some bs := by
        rw [← henc]
        exact b64decode_b64encode bs hbs
      have hup : (updateUtterance st itm).stream_sid = some sid := by
        rw [updateUtterance_stream_sid, hst]
      have hsm := send_mark_some (updateUtterance st itm) sid hup hsid
      rw [List.map_cons, send_to_twilio_delta st itm d bs hdec, hsm]
      have hrec := ih ((send_mark (updateUtterance st itm)).1)
          (by rw [hsm]; exact hup) (fun x hx => hds x (by simp [hx]))
      rw [hsm] at hrec
      simp only [List.map_cons, List.flatten_cons, hrec, henc, hst]
      rfl

/-- C5 witness: two canonical deltas yield media, mark, media, mark. -/
theorem c5_ordering_witness :
    (send_to_twilio
        { stream_sid := some "MZ", latest_media_timestamp := 0,
          last_assistant_item := none, mark_queue := [],
          response_start_timestamp_twilio := none }
        [OpenAIMsg.audioDelta (some "a1") (some "AA=="),
         OpenAIMsg.audioDelta (some "a1") (some "SGk=")]).2 =
      [Action.sendToCaller (CallerMsgOut.media (some "MZ") "AA=="),
       Action.sendToCaller (CallerMsgOut.mark (some "MZ") "responsePart"),
       Action.sendToCaller (CallerMsgOut.media (some "MZ") "SGk="),
       Action.sendToCaller (CallerMsgOut.mark (some "MZ") "responsePart")] := by
  have hds : ∀ d ∈ ["AA==", "SGk="], IsCanonicalB64 d := by
    intro d hd
    rcases List.mem_cons.mp hd with rfl | hd
    · exact ⟨[0], by decide, by decide⟩
    rcases List.mem_cons.mp hd with rfl | hd
    · exact ⟨[72, 105], by decide, by decide⟩
    · simp at hd
  have h := c5_ordering "MZ" (by decide) (some "a1") ["AA==", "SGk="]
      { stream_sid := some "MZ", latest_media_timestamp := 0,
        last_assistant_item := none, mark_queue := [],
        response_start_timestamp_twilio := none } rfl hds
  simpa using h

/-- C6 (confirmed): an audio delta carrying the item id already current
does not touch the start timestamp (nor the current item); an audio delta
carrying a different, non-empty item id resets the start timestamp to the
caller clock observed at that moment and makes the new id current. -/
theorem c6_single_utterance (st : SessionState) (d : String) (bs : List Nat)
    (hdec : b64decode d = some bs) :
    (∀ iid, st.last_assistant_item = some iid →
      ((send_to_twilio st
          [OpenAIMsg.audioDelta (some iid) (some d)]).1.response_start_timestamp_twilio
          = st.response_start_timestamp_twilio ∧
       (send_to_twilio st
          [OpenAIMsg.audioDelta (some iid) (some d)]).1.last_assistant_item
          = some iid)) ∧
    (∀ iid, iid ≠ "" → some iid ≠ st.last_assistant_item →
      ((send_to_twilio st
          [OpenAIMsg.audioDelta (some iid) (some d)]).1.response_start_timestamp_twilio
          = some st.latest_media_timestamp ∧
       (send_to_twilio st
          [OpenAIMsg.audioDelta (some iid) (some d)]).1.last_assistant_item
          = some iid)) := by
  constructor
  · intro iid hi
    rw [send_to_twilio_delta st (some iid) d bs hdec [], updateUtterance_same st iid hi]
    exact ⟨(send_mark_fields st).1.trans rfl, (send_mark_fields st).2.1.trans hi⟩
  · intro iid h1 h2
    rw [send_to_twilio_delta st (some iid) d bs hdec [], updateUtterance_new st iid h1 h2]
    exact ⟨(send_mark_fields _).1.trans rfl, (send_mark_fields _).2.1.trans rfl⟩

/-- C6 witness: a repeated item id "a1" leaves the start timestamp alone;
a new item id "b2" resets it to the current caller clock 42. -/
theorem c6_single_utterance_witness :
    ((send_to_twilio
        { stream_sid := some "MZ", latest_media_timestamp := 42,
          last_assistant_item := some "a1", mark_queue := [],
          response_start_timestamp_twilio := none }
        [OpenAIMsg.audioDelta (some "a1") (some "AA==")]).1.response_start_timestamp_twilio
        = none ∧
     (send_to_twilio
        { stream_sid := some "MZ", latest_media_timestamp := 42,
          last_assistant_item := some "a1", mark_queue := [],
          response_start_timestamp_twilio := none }
        [OpenAIMsg.audioDelta (some "a1") (some "AA==")]).1.last_assistant_item
        = some "a1") ∧
    ((send_to_twilio
        { stream_sid := some "MZ", latest_media_timestamp := 42,
          last_assistant_item := some "a1", mark_queue := [],
          response_start_timestamp_twilio := none }
        [OpenAIMsg.audioDelta (some "b2") (some "AA==")]).1.response_start_timestamp_twilio
        = some 42 ∧
     (send_to_twilio
        { stream_sid := some "MZ", latest_media_timestamp := 42,
          last_assistant_item := some "a1", mark_queue := [],
          response_start_timestamp_twilio := none }
        [OpenAIMsg.audioDelta (some "b2") (some "AA==")]).1.last_assistant_item
        = some "b2") := by
  have h := c6_single_utterance
      { stream_sid := some "MZ", latest_media_timestamp := 42,
        last_assistant_item := some "a1", mark_queue := [],
        response_start_timestamp_twilio := none } "AA==" [0] (by decide)
  exact ⟨h.1 "a1" rfl, h.2 "b2" (by decide) (by decide)⟩

/-- C7 (counterexample): a caller media frame with timestamp 123 arriving
while the model connection is not open leaves the caller clock at 0 and
sends nothing: the clock is not updated for every media event, contrary to
the claim. -/
theorem c7_counterexample :
    receive_from_twilio false initialState [TwilioMsg.media 123 "QQ=="] =
      (initialState, []) ∧ (123 : Int) ≠ 0 := by
  decide

/-- C7 (amended): the clock update and the forwarding share one guard (the
conjunction on line 174 of src/main.py): while the model connection is
open, a media frame updates the caller clock and is forwarded as an
input_audio_buffer.append command, independent of the barge-in state;
while it is not open, the frame is dropped entirely - no forward, no
buffering, and no clock update. -/
theorem c7_media_amended (st : SessionState) (ts : Int) (p : String)
    (rest : List TwilioMsg) :
    receive_from_twilio true st (TwilioMsg.media ts p :: rest) =
      ((receive_from_twilio true { st with latest_media_timestamp := ts } rest).1,
       Action.sendToModel (ModelCommand.audioAppend p) ::
         (receive_from_twilio true { st with latest_media_timestamp := ts } rest).2) ∧
    receive_from_twilio false st (TwilioMsg.media ts p :: rest) =
      receive_from_twilio false st rest := by
  exact ⟨rfl, rfl⟩

/-- C8 (confirmed): a caller mark event removes the oldest pending mark
when the queue is non-empty and is a harmless no-op on an empty queue:
in both cases the pump continues with the rest of the stream and the new
queue is the tail of the old one (the tail of the empty list being empty),
with no other state change and no command sent. -/
theorem c8_mark_ack (mo : Bool) (st : SessionState) (rest : List TwilioMsg) :
    receive_from_twilio mo st (TwilioMsg.mark :: rest) =
      receive_from_twilio mo { st with mark_queue := st.mark_queue.tail } rest := by
  obtain ⟨sid, lm, la, mq, rs⟩ := st
  cases mq <;> rfl

/-- C9 (confirmed): a caller start event updates only the shared stream_sid
and resets the shared caller clock to 0; the shared last_assistant_item,
response_start_timestamp_twilio and mark_queue are untouched, because the
assignments to the first two in the start branch bind fresh locals (they
are absent from the handler's nonlocal declaration), so a start arriving
mid-utterance preserves the previous utterance's truncation state. -/
theorem c9_start_frame (mo : Bool) (st : SessionState) (sid : String)
    (rest : List TwilioMsg) :
    receive_from_twilio mo st (TwilioMsg.start sid :: rest) =
      receive_from_twilio mo
        { st with stream_sid := some sid, latest_media_timestamp := 0 } rest ∧
    ({ st with stream_sid := some sid, latest_media_timestamp := 0 } :
        SessionState).last_assistant_item = st.last_assistant_item ∧
    ({ st with stream_sid := some sid, latest_media_timestamp := 0 } :
        SessionState).response_start_timestamp_twilio
        = st.response_start_timestamp_twilio ∧
    ({ st with stream_sid := some sid, latest_media_timestamp := 0 } :
        SessionState).mark_queue = st.mark_queue := by
  exact ⟨rfl, rfl, rfl, rfl⟩

/-- C10 (confirmed): for a delta that is canonical base64 (the encoding of
some byte string), the media payload forwarded to the caller - computed as
base64-encoding the base64-decoding of the delta - is the delta itself. -/
theorem c10_payload_roundtrip (st : SessionState) (s : String)
    (h : IsCanonicalB64 s) :
    (send_to_twilio st [OpenAIMsg.audioDelta (some "a1") (some s)]).2.head? =
      some (Action.sendToCaller (CallerMsgOut.media st.stream_sid s)) := by
  obtain ⟨bs, hbs, henc⟩ := h
  have hdec : b64decode s = some bs := by
    rw [← henc]
    exact b64decode_b64encode bs hbs
  rw [send_to_twilio_delta st (some "a1") s bs hdec []]
  simp [henc]

/-- C10 witness: the canonical delta "SGk=" is forwarded byte-for-byte. -/
theorem c10_payload_roundtrip_witness :
    IsCanonicalB64 "SGk=" ∧
    (send_to_twilio initialState [OpenAIMsg.audioDelta (some "a1") (some "SGk=")]).2.head? =
      some (Action.sendToCaller (CallerMsgOut.media none "SGk=")) :=
  ⟨⟨[72, 105], by decide, by decide⟩,
   c10_payload_roundtrip initialState "SGk=" ⟨[72, 105], by decide, by decide⟩⟩

end Wetrophia
